import Mathlib

/-!
Shallow embedding of `src/rpc/src/lib.rs` (frontier RPC `EthApi`).

Machine integers (`H160`, `H256`, `U256`, `u32`, `u64`) are modelled as `Nat`;
saturating conversions are made explicit where the source performs them.
External collaborators (chain selector, runtime API, transaction pool,
transaction converter) are fields of an explicit environment record, each
returning `Except Unit _` like the source's `Result<_, E>` whose error payload
is always discarded via `map_err(|_| ...)`.  A Rust `unimplemented!` is a
process-level panic, not a returned value, so method results live in a
three-way `Outcome`: a returned value, a returned JSON-RPC error object, or a
panic with the `unimplemented!` message.
-/

namespace FrontierRpc

/-- jsonrpc_core::Error: {code, message, data}.  `data` is always `None` in
this file, so it is omitted.  `ErrorCode::InternalError` is -32603. -/
structure Error where
  code : Int
  message : String
deriving DecidableEq, Repr

/-- `internal_err` from lib.rs: an InternalError (-32603) with the message. -/
def internal_err (message : String) : Error :=
  { code := -32603, message := message }

/-- Result of one RPC method call: a value, a returned structured error, or a
panic raised by `unimplemented!` (which never returns to the caller). -/
inductive Outcome (α : Type) where
  | ok : α → Outcome α
  | err : Error → Outcome α
  | panic : String → Outcome α
deriving DecidableEq, Repr

/-- Whether an outcome is a returned structured error object. -/
def Outcome.isErr {α : Type} : Outcome α → Bool
  | .err _ => true
  | _ => false

/-- Whether an outcome is a panic (process-level abort). -/
def Outcome.isPanic {α : Type} : Outcome α → Bool
  | .panic _ => true
  | _ => false

/-- A best-chain header: its hash and its height. -/
structure Header where
  hash : Nat
  number : Nat
deriving DecidableEq, Repr

/-- Modelled from the spec: `BlockNumber` lives in `frontier_rpc_core::types`,
which is not part of this source tree.  Spec §3: "BlockReference: tagged union
{Earliest, Latest, Pending, Number(u64)}". -/
inductive BlockNumber where
  | Earliest
  | Latest
  | Pending
  | Num : Nat → BlockNumber
deriving DecidableEq, Repr

/-- Modelled from the spec: `to_min_block_num` of `frontier_rpc_core`.  Spec
§3: "Number ... is the only form with a concrete numeric value", and §4.2
resolves a concrete height directly while every other tag is either `Latest`
(substituted separately) or unsupported. -/
def BlockNumber.to_min_block_num : BlockNumber → Option Nat
  | .Num n => some n
  | _ => none

/-- `x.unique_saturated_into()` into a `u32`: saturates at `u32::MAX`. -/
def satU32 (n : Nat) : Nat := min n (2 ^ 32 - 1)

/-- The runtime's `account_basic` answer: balance and nonce. -/
structure AccountBasic where
  balance : Nat
  nonce : Nat
deriving DecidableEq, Repr

/-- Header of an internal `ethereum::Block` (only the fields lib.rs reads). -/
structure EthHeader where
  parent_hash : Nat
  state_root : Nat
  transactions_root : Nat
  receipts_root : Nat
  number : Nat
  gas_used : Nat
  gas_limit : Nat
  logs_bloom : Nat
  timestamp : Nat
  difficulty : Nat
deriving DecidableEq, Repr

/-- Internal `ethereum::Block`: header plus opaque transactions and ommers. -/
structure EthBlock where
  header : EthHeader
  transactions : List Nat
  ommers : List Nat
deriving DecidableEq, Repr

/-- The runtime's transaction-status record. -/
structure TransactionStatus where
  transaction_hash : Nat
  transaction_index : Nat
  sender : Nat
  «to» : Option Nat
  contract_address : Option Nat
deriving DecidableEq, Repr

/-- `frontier_rpc_core::types::Receipt` (the fields lib.rs constructs). -/
structure Receipt where
  transaction_hash : Option Nat
  transaction_index : Option Nat
  block_hash : Option Nat
  sender : Option Nat
  «to» : Option Nat
  block_number : Option Nat
  cumulative_gas_used : Nat
  gas_used : Option Nat
  contract_address : Option Nat
  logs : List Nat
  state_root : Option Nat
  logs_bloom : Nat
  status_code : Option Nat
deriving DecidableEq, Repr

/-- `BlockTransactions`: hashes only, or full transaction bodies. -/
inductive BlockTransactions where
  | Hashes : List Nat → BlockTransactions
  | Full : List Nat → BlockTransactions
deriving DecidableEq, Repr

/-- `frontier_rpc_core::types::Block`, the external wire block shape. -/
structure Block where
  hash : Option Nat
  parent_hash : Nat
  uncles_hash : Nat
  author : Nat
  miner : Nat
  state_root : Nat
  transactions_root : Nat
  receipts_root : Nat
  number : Option Nat
  gas_used : Nat
  gas_limit : Nat
  extra_data : List Nat
  logs_bloom : Option Nat
  timestamp : Nat
  difficulty : Nat
  total_difficulty : Option Nat
  seal_fields : List (List Nat)
  uncles : List Nat
  transactions : BlockTransactions
  size : Option Nat
deriving DecidableEq, Repr

/-- `Rich<Block>`: the inner block plus an extra-info map (empty here). -/
structure Rich where
  inner : Block
  extra_info : List (String × String)
deriving DecidableEq, Repr

/-- `RichBlock = Rich<Block>`. -/
abbrev RichBlock := Rich

/-- `frontier_rpc_core::types::Work`. -/
structure Work where
  pow_hash : Nat
  seed_hash : Nat
  target : Nat
  number : Option Nat
deriving DecidableEq, Repr

/-- `sp_runtime::transaction_validity::TransactionSource`. -/
inductive TransactionSource where
  | InBlock
  | Local
  | External
deriving DecidableEq, Repr

/-- The RLP codec and hash function used by `send_raw_transaction`: library
functions shared by every `EthApi` instance, hence a single record passed to
the embedding rather than a per-instance capability.  A decoded
`ethereum::Transaction` is opaque here (a `Nat`). -/
structure TxCodec where
  decode : List Nat → Option Nat
  encode : Nat → List Nat
  keccak256 : List Nat → Nat

/-- The injected collaborators of one `EthApi` instance.  Runtime-API queries
take the `BlockId` hash (the best header's hash) first, mirroring
`self.client.runtime_api().f(&BlockId::Hash(header.hash()), ...)`.
`pool_submit` returns the pool's own reply payload, which the source
discards. -/
structure Env where
  best_chain : Except Unit Header
  account_basic : Nat → Nat → Except Unit AccountBasic
  account_code_at : Nat → Nat → Except Unit (List Nat)
  runtime_block_by_hash : Nat → Nat → Except Unit (Option EthBlock)
  runtime_block_by_number : Nat → Nat → Except Unit (Option EthBlock)
  runtime_block_transaction_count_by_number : Nat → Nat → Except Unit (Option Nat)
  runtime_transaction_status : Nat → Nat → Except Unit (Option TransactionStatus)
  convert_transaction : Nat → Nat
  pool_submit : Nat → TransactionSource → Nat → Except Unit Nat

/-- `rich_block_build` from lib.rs, field for field. -/
def rich_block_build (block : EthBlock) : RichBlock :=
  { inner :=
      { hash := none
        parent_hash := block.header.parent_hash
        uncles_hash := 0
        author := 0
        miner := 0
        state_root := block.header.state_root
        transactions_root := block.header.transactions_root
        receipts_root := block.header.receipts_root
        number := some block.header.number
        gas_used := block.header.gas_used
        gas_limit := block.header.gas_limit
        extra_data := []
        logs_bloom := some block.header.logs_bloom
        timestamp := block.header.timestamp
        difficulty := block.header.difficulty
        total_difficulty := none
        seal_fields := []
        uncles := []
        transactions := BlockTransactions.Full []
        size := none }
    extra_info := [] }

/-- `protocol_version`: `unimplemented!("protocol version")`. -/
def protocol_version : Outcome String :=
  Outcome.panic "protocol version"

/-- `hashrate`: `Ok(U256::zero())`. -/
def hashrate : Outcome Nat :=
  Outcome.ok 0

/-- `is_mining`: `Ok(false)`. -/
def is_mining : Outcome Bool :=
  Outcome.ok false

/-- `block_number`: the best header's height (or internal error). -/
def block_number (env : Env) : Outcome Nat :=
  match env.best_chain with
  | .error _ => Outcome.err (internal_err "fetch header failed")
  | .ok header => Outcome.ok header.number

/-- `balance` from lib.rs: a supplied non-Latest block number panics via
`unimplemented!`; otherwise query `account_basic` at the best header. -/
def balance (env : Env) (address : Nat) (number : Option BlockNumber) : Outcome Nat :=
  match number with
  | some n =>
    if n = BlockNumber.Latest then
      match env.best_chain with
      | .error _ => Outcome.err (internal_err "fetch header failed")
      | .ok header =>
        match env.account_basic header.hash address with
        | .error _ => Outcome.err (internal_err "fetch runtime chain id failed")
        | .ok basic => Outcome.ok basic.balance
    else
      Outcome.panic "fetch nonce for past blocks is not yet supported"
  | none =>
    match env.best_chain with
    | .error _ => Outcome.err (internal_err "fetch header failed")
    | .ok header =>
      match env.account_basic header.hash address with
      | .error _ => Outcome.err (internal_err "fetch runtime chain id failed")
      | .ok basic => Outcome.ok basic.balance

/-- `transaction_count` from lib.rs (the nonce query): same Latest-only
guard, then `account_basic(...).nonce`. -/
def transaction_count (env : Env) (address : Nat) (number : Option BlockNumber) : Outcome Nat :=
  match number with
  | some n =>
    if n = BlockNumber.Latest then
      match env.best_chain with
      | .error _ => Outcome.err (internal_err "fetch header failed")
      | .ok header =>
        match env.account_basic header.hash address with
        | .error _ => Outcome.err (internal_err "fetch runtime account basic failed")
        | .ok basic => Outcome.ok basic.nonce
    else
      Outcome.panic "fetch nonce for past blocks is not yet supported"
  | none =>
    match env.best_chain with
    | .error _ => Outcome.err (internal_err "fetch header failed")
    | .ok header =>
      match env.account_basic header.hash address with
      | .error _ => Outcome.err (internal_err "fetch runtime account basic failed")
      | .ok basic => Outcome.ok basic.nonce

/-- `code_at` from lib.rs: same Latest-only guard, then `account_code_at`. -/
def code_at (env : Env) (address : Nat) (number : Option BlockNumber) : Outcome (List Nat) :=
  match number with
  | some n =>
    if n = BlockNumber.Latest then
      match env.best_chain with
      | .error _ => Outcome.err (internal_err "fetch header failed")
      | .ok header =>
        match env.account_code_at header.hash address with
        | .error _ => Outcome.err (internal_err "fetch runtime chain id failed")
        | .ok code => Outcome.ok code
    else
      Outcome.panic "fetch nonce for past blocks is not yet supported"
  | none =>
    match env.best_chain with
    | .error _ => Outcome.err (internal_err "fetch header failed")
    | .ok header =>
      match env.account_code_at header.hash address with
      | .error _ => Outcome.err (internal_err "fetch runtime chain id failed")
      | .ok code => Outcome.ok code

/-- `block_by_hash` from lib.rs.  `if let Ok(Some(block)) = ...` means both a
runtime error and a runtime `Ok(None)` fall to the `Ok(None)` branch.  The
full-transactions boolean argument is ignored (`_: bool`). -/
def block_by_hash (env : Env) (hash : Nat) (full : Bool) : Outcome (Option RichBlock) :=
  match env.best_chain with
  | .error _ => Outcome.err (internal_err "fetch header failed")
  | .ok header =>
    match env.runtime_block_by_hash header.hash hash with
    | .ok (some block) => Outcome.ok (some (rich_block_build block))
    | _ => Outcome.ok none

/-- `block_by_number` from lib.rs: a concrete number is saturated into `u32`;
`Latest` substitutes the best header's height; any other tag panics via
`unimplemented!`.  Runtime error and runtime `Ok(None)` both give `Ok(None)`. -/
def block_by_number (env : Env) (number : BlockNumber) (full : Bool) :
    Outcome (Option RichBlock) :=
  match env.best_chain with
  | .error _ => Outcome.err (internal_err "fetch header failed")
  | .ok header =>
    match number.to_min_block_num with
    | some block_number =>
      match env.runtime_block_by_number header.hash (satU32 block_number) with
      | .ok (some block) => Outcome.ok (some (rich_block_build block))
      | _ => Outcome.ok none
    | none =>
      if number = BlockNumber.Latest then
        match env.runtime_block_by_number header.hash (satU32 header.number) with
        | .ok (some block) => Outcome.ok (some (rich_block_build block))
        | _ => Outcome.ok none
      else
        Outcome.panic "only latest or block number are supported"

/-- `block_transaction_count_by_number` from lib.rs: same height resolution;
a runtime error is explicitly turned into `Ok(None)` (`Err(_) => return
Ok(None)`). -/
def block_transaction_count_by_number (env : Env) (number : BlockNumber) :
    Outcome (Option Nat) :=
  match env.best_chain with
  | .error _ => Outcome.err (internal_err "fetch header failed")
  | .ok header =>
    match number.to_min_block_num with
    | some block_number =>
      match env.runtime_block_transaction_count_by_number header.hash (satU32 block_number) with
      | .ok result => Outcome.ok result
      | .error _ => Outcome.ok none
    | none =>
      if number = BlockNumber.Latest then
        match env.runtime_block_transaction_count_by_number header.hash (satU32 header.number) with
        | .ok result => Outcome.ok result
        | .error _ => Outcome.ok none
      else
        Outcome.panic "fetch count for past blocks is not yet supported"

/-- `block_uncles_count_by_hash`: unconditionally `Ok(U256::zero())`. -/
def block_uncles_count_by_hash (hash : Nat) : Outcome Nat :=
  Outcome.ok 0

/-- `block_uncles_count_by_number`: unconditionally `Ok(U256::zero())`. -/
def block_uncles_count_by_number (number : BlockNumber) : Outcome Nat :=
  Outcome.ok 0

/-- Which collaborators a `send_raw_transaction` call touched: the chain
selector (`select_chain.best_chain()`) and the pool (`submit_one`). -/
structure SubmitTrace where
  selector_called : Bool
  pool_called : Bool
deriving DecidableEq, Repr

/-- `send_raw_transaction` from lib.rs, with the eventual resolution of the
returned future as the `Outcome` and a trace of collaborator invocations.
Order mirrors the source: decode (failure returns before anything else);
hash the RLP re-encoding with Keccak-256; resolve the best header; submit the
converted transaction tagged `Local`; on pool acceptance resolve with the
precomputed hash, discarding the pool's reply. -/
def send_raw_transaction (codec : TxCodec) (env : Env) (bytes : List Nat) :
    Outcome Nat × SubmitTrace :=
  match codec.decode bytes with
  | none =>
    (Outcome.err (internal_err "decode transaction failed"),
     { selector_called := false, pool_called := false })
  | some transaction =>
    let transaction_hash := codec.keccak256 (codec.encode transaction)
    match env.best_chain with
    | .error _ =>
      (Outcome.err (internal_err "fetch header failed"),
       { selector_called := true, pool_called := false })
    | .ok header =>
      match env.pool_submit header.hash TransactionSource.Local
          (env.convert_transaction transaction) with
      | .error _ =>
        (Outcome.err (internal_err "submit transaction to pool failed"),
         { selector_called := true, pool_called := true })
      | .ok _ =>
        (Outcome.ok transaction_hash,
         { selector_called := true, pool_called := true })

/-- `call`: `unimplemented!("call")`.  The request is opaque. -/
def call (request : Nat) (number : Option BlockNumber) : Outcome (List Nat) :=
  Outcome.panic "call"

/-- `estimate_gas`: `unimplemented!("estimate_gas")`. -/
def estimate_gas (request : Nat) (number : Option BlockNumber) : Outcome Nat :=
  Outcome.panic "estimate_gas"

/-- `logs`: `unimplemented!("logs")`. -/
def logs (filter : Nat) : Outcome (List Nat) :=
  Outcome.panic "logs"

/-- `compilers`: `unimplemented!("compilers")`. -/
def compilers : Outcome (List String) :=
  Outcome.panic "compilers"

/-- `compile_solidity`: `unimplemented!("compile_solidity")`. -/
def compile_solidity (source : String) : Outcome (List Nat) :=
  Outcome.panic "compile_solidity"

/-- `transaction_receipt` from lib.rs: a best-chain failure or a runtime
failure is an internal error; a present status is mapped to a `Receipt` with
copied identity fields and defaulted placeholders; an absent status is
`Ok(None)`. -/
def transaction_receipt (env : Env) (hash : Nat) : Outcome (Option Receipt) :=
  match env.best_chain with
  | .error _ => Outcome.err (internal_err "fetch header failed")
  | .ok header =>
    match env.runtime_transaction_status header.hash hash with
    | .error _ => Outcome.err (internal_err "fetch runtime transaction status failed")
    | .ok status =>
      Outcome.ok (status.map (fun status =>
        { transaction_hash := some status.transaction_hash
          transaction_index := some status.transaction_index
          block_hash := some 0
          sender := some status.sender
          «to» := status.«to»
          block_number := some 0
          cumulative_gas_used := 0
          gas_used := some 0
          contract_address := status.contract_address
          logs := []
          state_root := none
          logs_bloom := 0
          status_code := none }))

/-- `uncle_by_block_hash_and_index`: unconditionally `Ok(None)`. -/
def uncle_by_block_hash_and_index (hash : Nat) (index : Nat) : Outcome (Option RichBlock) :=
  Outcome.ok none

/-- `uncle_by_block_number_and_index`: unconditionally `Ok(None)`. -/
def uncle_by_block_number_and_index (number : BlockNumber) (index : Nat) :
    Outcome (Option RichBlock) :=
  Outcome.ok none

/-- `work`: `Ok(Work { default hashes, number: None })`. -/
def work : Outcome Work :=
  Outcome.ok { pow_hash := 0, seed_hash := 0, target := 0, number := none }

/-! Concrete sample collaborators, used by witnesses and counterexamples. -/

/-- A concrete internal block. -/
def sampleBlock : EthBlock :=
  { header :=
      { parent_hash := 1, state_root := 2, transactions_root := 3, receipts_root := 4
        number := 5, gas_used := 6, gas_limit := 7, logs_bloom := 8
        timestamp := 9, difficulty := 10 }
    transactions := [], ommers := [] }

/-- A concrete transaction-status record. -/
def sampleStatus : TransactionStatus :=
  { transaction_hash := 42, transaction_index := 1, sender := 2
    «to» := some 3, contract_address := none }

/-- A concrete codec: every byte string decodes to transaction `5`. -/
def sampleCodec : TxCodec :=
  { decode := fun _ => some 5
    encode := fun t => [t, t, t]
    keccak256 := fun l => l.foldl (fun a b => a + b) 0 + l.length }

/-- A codec on which every byte string fails to decode. -/
def failCodec : TxCodec :=
  { decode := fun _ => none
    encode := fun t => [t]
    keccak256 := fun _ => 0 }

/-- A healthy environment: head `⟨10, 7⟩`, every query answers. -/
def sampleEnvA : Env :=
  { best_chain := .ok { hash := 10, number := 7 }
    account_basic := fun _ _ => .ok { balance := 100, nonce := 3 }
    account_code_at := fun _ _ => .ok [1, 2]
    runtime_block_by_hash := fun _ _ => .ok (some sampleBlock)
    runtime_block_by_number := fun _ _ => .ok (some sampleBlock)
    runtime_block_transaction_count_by_number := fun _ _ => .ok (some 4)
    runtime_transaction_status := fun _ _ => .ok (some sampleStatus)
    convert_transaction := fun t => t + 1
    pool_submit := fun _ _ _ => .ok 77 }

/-- A second independent healthy environment: different head, different pool
reply, different converter. -/
def sampleEnvB : Env :=
  { best_chain := .ok { hash := 20, number := 9 }
    account_basic := fun _ _ => .ok { balance := 1, nonce := 0 }
    account_code_at := fun _ _ => .ok []
    runtime_block_by_hash := fun _ _ => .ok none
    runtime_block_by_number := fun _ _ => .ok none
    runtime_block_transaction_count_by_number := fun _ _ => .ok none
    runtime_transaction_status := fun _ _ => .ok none
    convert_transaction := fun t => t * 2
    pool_submit := fun _ _ _ => .ok 55 }

/-- An environment whose runtime queries all answer successfully with an
empty result. -/
def sampleEnvEmpty : Env :=
  { best_chain := .ok { hash := 10, number := 7 }
    account_basic := fun _ _ => .ok { balance := 0, nonce := 0 }
    account_code_at := fun _ _ => .ok []
    runtime_block_by_hash := fun _ _ => .ok none
    runtime_block_by_number := fun _ _ => .ok none
    runtime_block_transaction_count_by_number := fun _ _ => .ok none
    runtime_transaction_status := fun _ _ => .ok none
    convert_transaction := fun t => t
    pool_submit := fun _ _ _ => .ok 0 }

/-- An environment whose chain selector cannot resolve a best chain. -/
def envChainFail : Env :=
  { best_chain := .error ()
    account_basic := fun _ _ => .ok { balance := 0, nonce := 0 }
    account_code_at := fun _ _ => .ok []
    runtime_block_by_hash := fun _ _ => .ok none
    runtime_block_by_number := fun _ _ => .ok none
    runtime_block_transaction_count_by_number := fun _ _ => .ok none
    runtime_transaction_status := fun _ _ => .ok none
    convert_transaction := fun t => t
    pool_submit := fun _ _ _ => .ok 0 }

/-- An environment with a healthy head whose runtime queries all fail. -/
def envRuntimeFail : Env :=
  { best_chain := .ok { hash := 10, number := 7 }
    account_basic := fun _ _ => .error ()
    account_code_at := fun _ _ => .error ()
    runtime_block_by_hash := fun _ _ => .error ()
    runtime_block_by_number := fun _ _ => .error ()
    runtime_block_transaction_count_by_number := fun _ _ => .error ()
    runtime_transaction_status := fun _ _ => .error ()
    convert_transaction := fun t => t
    pool_submit := fun _ _ _ => .error () }

/-! Claims. -/

/-- C1: for raw bytes that decode successfully, the future returned by
`send_raw_transaction`, when the pool accepts, resolves to exactly the
Keccak-256 hash of the RLP re-encoding of the decoded transaction; the hash
is deterministic across two independent `EthApi` instances (any two
environments sharing the codec libraries) and is independent of the pool's
state and of any pool-computed reply. -/
theorem C1_send_raw_transaction_hash
    (codec : TxCodec) (env₁ env₂ : Env) (bytes : List Nat) (tx : Nat)
    (hdr₁ hdr₂ : Header) (r₁ r₂ : Nat)
    (hdec : codec.decode bytes = some tx)
    (hc₁ : env₁.best_chain = .ok hdr₁)
    (hc₂ : env₂.best_chain = .ok hdr₂)
    (hp₁ : env₁.pool_submit hdr₁.hash TransactionSource.Local
      (env₁.convert_transaction tx) = .ok r₁)
    (hp₂ : env₂.pool_submit hdr₂.hash TransactionSource.Local
      (env₂.convert_transaction tx) = .ok r₂) :
    (send_raw_transaction codec env₁ bytes).1 =
      Outcome.ok (codec.keccak256 (codec.encode tx)) ∧
    (send_raw_transaction codec env₁ bytes).1 =
      (send_raw_transaction codec env₂ bytes).1 := by
  simp [send_raw_transaction, hdec, hc₁, hc₂, hp₁, hp₂]

/-- Witness for C1 at concrete codec, environments and bytes. -/
theorem C1_send_raw_transaction_hash_witness :
    (send_raw_transaction sampleCodec sampleEnvA [3]).1 =
      Outcome.ok (sampleCodec.keccak256 (sampleCodec.encode 5)) ∧
    (send_raw_transaction sampleCodec sampleEnvA [3]).1 =
      (send_raw_transaction sampleCodec sampleEnvB [3]).1 :=
  C1_send_raw_transaction_hash sampleCodec sampleEnvA sampleEnvB [3] 5
    { hash := 10, number := 7 } { hash := 20, number := 9 } 77 55
    rfl rfl rfl rfl rfl

/-- C2: on bytes that fail to decode, `send_raw_transaction` immediately
returns a failed future carrying the decode error, and neither the pool's
`submit_one` nor the chain selector is invoked. -/
theorem C2_decode_failure_no_pool
    (codec : TxCodec) (env : Env) (bytes : List Nat)
    (hdec : codec.decode bytes = none) :
    send_raw_transaction codec env bytes =
      (Outcome.err (internal_err "decode transaction failed"),
       { selector_called := false, pool_called := false }) := by
  simp [send_raw_transaction, hdec]

/-- Witness for C2 at a codec on which decoding fails. -/
theorem C2_decode_failure_no_pool_witness :
    send_raw_transaction failCodec sampleEnvA [1, 2] =
      (Outcome.err (internal_err "decode transaction failed"),
       { selector_called := false, pool_called := false }) :=
  C2_decode_failure_no_pool failCodec sampleEnvA [1, 2] rfl

/-- C3: for every address and every explicitly supplied block reference other
than `Latest`, each of `balance`, `transaction_count` and `code_at` fails via
the explicit `unimplemented!("... not yet supported")` abort: it never
returns a value (in particular never present-state data). -/
theorem C3_historical_queries_unsupported
    (env : Env) (address : Nat) (n : BlockNumber) (h : n ≠ BlockNumber.Latest) :
    balance env address (some n) =
      Outcome.panic "fetch nonce for past blocks is not yet supported" ∧
    transaction_count env address (some n) =
      Outcome.panic "fetch nonce for past blocks is not yet supported" ∧
    code_at env address (some n) =
      Outcome.panic "fetch nonce for past blocks is not yet supported" := by
  refine ⟨?_, ?_, ?_⟩ <;> simp [balance, transaction_count, code_at, h]

/-- Witness for C3 at block reference `Num 0`. -/
theorem C3_historical_queries_unsupported_witness :
    balance sampleEnvA 1 (some (BlockNumber.Num 0)) =
      Outcome.panic "fetch nonce for past blocks is not yet supported" ∧
    transaction_count sampleEnvA 1 (some (BlockNumber.Num 0)) =
      Outcome.panic "fetch nonce for past blocks is not yet supported" ∧
    code_at sampleEnvA 1 (some (BlockNumber.Num 0)) =
      Outcome.panic "fetch nonce for past blocks is not yet supported" :=
  C3_historical_queries_unsupported sampleEnvA 1 (BlockNumber.Num 0) (by decide)

/-- C4 counterexample: `protocol_version` does not return a structured
`RpcError` — it is an `unimplemented!` panic (process-level abort). -/
theorem C4_counterexample :
    Outcome.isErr protocol_version = false ∧
    protocol_version = Outcome.panic "protocol version" :=
  ⟨rfl, rfl⟩

/-- C4 amended: calls to unsupported methods (`protocol_version`, `call`) and
to `block_by_number` with a tag that is neither `Latest` nor a concrete
number terminate in an `unimplemented!` panic carrying an explicit message —
they never return a value, but the abort is a panic, not a structured
`RpcError`. -/
theorem C4_unsupported_methods_panic
    (env : Env) (req : Nat) (nopt : Option BlockNumber)
    (number : BlockNumber) (full : Bool) (hdr : Header)
    (hc : env.best_chain = .ok hdr)
    (hmin : number.to_min_block_num = none)
    (hlat : number ≠ BlockNumber.Latest) :
    protocol_version = Outcome.panic "protocol version" ∧
    call req nopt = Outcome.panic "call" ∧
    block_by_number env number full =
      Outcome.panic "only latest or block number are supported" := by
  refine ⟨rfl, rfl, ?_⟩
  simp [block_by_number, hc, hmin, hlat]

/-- Witness for the amended C4 at tag `Pending`. -/
theorem C4_unsupported_methods_panic_witness :
    protocol_version = Outcome.panic "protocol version" ∧
    call 0 none = Outcome.panic "call" ∧
    block_by_number sampleEnvA BlockNumber.Pending true =
      Outcome.panic "only latest or block number are supported" :=
  C4_unsupported_methods_panic sampleEnvA 0 none BlockNumber.Pending true
    { hash := 10, number := 7 } rfl rfl (by decide)

/-- C5: when the runtime answers successfully with no block, `block_by_hash`
and `block_by_number` (at a concrete height) return `Ok(None)`, never an
error. -/
theorem C5_absent_block_is_none
    (env : Env) (hdr : Header) (hsh n : Nat) (full : Bool)
    (hc : env.best_chain = .ok hdr)
    (hbh : env.runtime_block_by_hash hdr.hash hsh = .ok none)
    (hbn : env.runtime_block_by_number hdr.hash (satU32 n) = .ok none) :
    block_by_hash env hsh full = Outcome.ok none ∧
    block_by_number env (BlockNumber.Num n) full = Outcome.ok none := by
  constructor
  · simp [block_by_hash, hc, hbh]
  · simp [block_by_number, hc, BlockNumber.to_min_block_num, hbn]

/-- Witness for C5 in an environment whose lookups answer `None`. -/
theorem C5_absent_block_is_none_witness :
    block_by_hash sampleEnvEmpty 5 true = Outcome.ok none ∧
    block_by_number sampleEnvEmpty (BlockNumber.Num 3) true = Outcome.ok none :=
  C5_absent_block_is_none sampleEnvEmpty { hash := 10, number := 7 } 5 3 true
    rfl rfl rfl

/-- C6 counterexample: with a healthy head but a failing runtime,
`block_by_hash` silently answers `Ok(None)` instead of an internal
`RpcError` with code -32603. -/
theorem C6_counterexample :
    block_by_hash envRuntimeFail 5 true = Outcome.ok none ∧
    Outcome.isErr (block_by_hash envRuntimeFail 5 true) = false := by
  constructor <;> rfl

/-- C6 amended: best-chain resolution failures (in every block-scoped
method), and runtime query failures in `balance`, `transaction_count`,
`code_at` and `transaction_receipt`, do return an internal `RpcError` with
code -32603 and a short message; but in `block_by_hash`, `block_by_number`
and `block_transaction_count_by_number` a runtime query failure is silently
converted into `Ok(None)`. -/
theorem C6_runtime_failure_handling
    (envBad env : Env) (hdr : Header) (hsh n a txh : Nat) (full : Bool)
    (hcb : envBad.best_chain = .error ())
    (hc : env.best_chain = .ok hdr)
    (hbh : env.runtime_block_by_hash hdr.hash hsh = .error ())
    (hbn : env.runtime_block_by_number hdr.hash (satU32 n) = .error ())
    (hbc : env.runtime_block_transaction_count_by_number hdr.hash (satU32 n) = .error ())
    (hab : env.account_basic hdr.hash a = .error ())
    (hac : env.account_code_at hdr.hash a = .error ())
    (hts : env.runtime_transaction_status hdr.hash txh = .error ()) :
    balance envBad a none = Outcome.err (internal_err "fetch header failed") ∧
    transaction_count envBad a none = Outcome.err (internal_err "fetch header failed") ∧
    code_at envBad a none = Outcome.err (internal_err "fetch header failed") ∧
    block_by_hash envBad hsh full = Outcome.err (internal_err "fetch header failed") ∧
    block_by_number envBad (BlockNumber.Num n) full =
      Outcome.err (internal_err "fetch header failed") ∧
    block_transaction_count_by_number envBad (BlockNumber.Num n) =
      Outcome.err (internal_err "fetch header failed") ∧
    transaction_receipt envBad txh = Outcome.err (internal_err "fetch header failed") ∧
    balance env a none = Outcome.err (internal_err "fetch runtime chain id failed") ∧
    transaction_count env a none =
      Outcome.err (internal_err "fetch runtime account basic failed") ∧
    code_at env a none = Outcome.err (internal_err "fetch runtime chain id failed") ∧
    transaction_receipt env txh =
      Outcome.err (internal_err "fetch runtime transaction status failed") ∧
    block_by_hash env hsh full = Outcome.ok none ∧
    block_by_number env (BlockNumber.Num n) full = Outcome.ok none ∧
    block_transaction_count_by_number env (BlockNumber.Num n) = Outcome.ok none ∧
    (internal_err "fetch header failed").code = -32603 ∧
    (internal_err "fetch runtime chain id failed").code = -32603 ∧
    (internal_err "fetch runtime account basic failed").code = -32603 ∧
    (internal_err "fetch runtime transaction status failed").code = -32603 := by
  refine ⟨?_, ?_, ?_, ?_, ?_, ?_, ?_, ?_, ?_, ?_, ?_, ?_, ?_, ?_, rfl, rfl, rfl, rfl⟩
  · simp [balance, hcb]
  · simp [transaction_count, hcb]
  · simp [code_at, hcb]
  · simp [block_by_hash, hcb]
  · simp [block_by_number, hcb]
  · simp [block_transaction_count_by_number, hcb]
  · simp [transaction_receipt, hcb]
  · simp [balance, hc, hab]
  · simp [transaction_count, hc, hab]
  · simp [code_at, hc, hac]
  · simp [transaction_receipt, hc, hts]
  · simp [block_by_hash, hc, hbh]
  · simp [block_by_number, hc, BlockNumber.to_min_block_num, hbn]
  · simp [block_transaction_count_by_number, hc, BlockNumber.to_min_block_num, hbc]

/-- Witness for the amended C6: a failed chain selector in `envChainFail` and
a failing runtime behind a healthy head in `envRuntimeFail`. -/
theorem C6_runtime_failure_handling_witness :
    balance envChainFail 1 none = Outcome.err (internal_err "fetch header failed") ∧
    transaction_count envChainFail 1 none = Outcome.err (internal_err "fetch header failed") ∧
    code_at envChainFail 1 none = Outcome.err (internal_err "fetch header failed") ∧
    block_by_hash envChainFail 5 true = Outcome.err (internal_err "fetch header failed") ∧
    block_by_number envChainFail (BlockNumber.Num 3) true =
      Outcome.err (internal_err "fetch header failed") ∧
    block_transaction_count_by_number envChainFail (BlockNumber.Num 3) =
      Outcome.err (internal_err "fetch header failed") ∧
    transaction_receipt envChainFail 42 = Outcome.err (internal_err "fetch header failed") ∧
    balance envRuntimeFail 1 none =
      Outcome.err (internal_err "fetch runtime chain id failed") ∧
    transaction_count envRuntimeFail 1 none =
      Outcome.err (internal_err "fetch runtime account basic failed") ∧
    code_at envRuntimeFail 1 none =
      Outcome.err (internal_err "fetch runtime chain id failed") ∧
    transaction_receipt envRuntimeFail 42 =
      Outcome.err (internal_err "fetch runtime transaction status failed") ∧
    block_by_hash envRuntimeFail 5 true = Outcome.ok none ∧
    block_by_number envRuntimeFail (BlockNumber.Num 3) true = Outcome.ok none ∧
    block_transaction_count_by_number envRuntimeFail (BlockNumber.Num 3) = Outcome.ok none ∧
    (internal_err "fetch header failed").code = -32603 ∧
    (internal_err "fetch runtime chain id failed").code = -32603 ∧
    (internal_err "fetch runtime account basic failed").code = -32603 ∧
    (internal_err "fetch runtime transaction status failed").code = -32603 :=
  C6_runtime_failure_handling envChainFail envRuntimeFail { hash := 10, number := 7 }
    5 3 1 42 true rfl rfl rfl rfl rfl rfl rfl rfl

/-- C7: if the canonical head is unchanged, `block_by_number Latest` equals
`block_by_number (Num h)` with `h` the current head height, because `Latest`
is resolved by substituting the head's height before the lookup. -/
theorem C7_latest_equals_head_number
    (env : Env) (hdr : Header) (h : Nat) (full : Bool)
    (hc : env.best_chain = .ok hdr) (hh : hdr.number = h) :
    block_by_number env BlockNumber.Latest full =
      block_by_number env (BlockNumber.Num h) full := by
  subst hh
  simp [block_by_number, hc, BlockNumber.to_min_block_num]

/-- Witness for C7 at head height 7. -/
theorem C7_latest_equals_head_number_witness :
    block_by_number sampleEnvA BlockNumber.Latest true =
      block_by_number sampleEnvA (BlockNumber.Num 7) true :=
  C7_latest_equals_head_number sampleEnvA { hash := 10, number := 7 } 7 true rfl rfl

/-- C8: `transaction_receipt` returns `Ok(None)` when the runtime reports no
status, and otherwise a receipt copying identity fields from the status
record (`transaction_hash`, `transaction_index`, `from`, `to`,
`contract_address`) with placeholder defaults for the rest (block hash and
number zero, gas used zero, empty logs, no status code). -/
theorem C8_transaction_receipt_shape
    (env : Env) (hdr : Header) (h : Nat) (s : TransactionStatus)
    (hc : env.best_chain = .ok hdr) :
    (env.runtime_transaction_status hdr.hash h = .ok none →
      transaction_receipt env h = Outcome.ok none) ∧
    (env.runtime_transaction_status hdr.hash h = .ok (some s) →
      transaction_receipt env h = Outcome.ok (some
        { transaction_hash := some s.transaction_hash
          transaction_index := some s.transaction_index
          block_hash := some 0
          sender := some s.sender
          «to» := s.«to»
          block_number := some 0
          cumulative_gas_used := 0
          gas_used := some 0
          contract_address := s.contract_address
          logs := []
          state_root := none
          logs_bloom := 0
          status_code := none })) := by
  constructor <;> intro hts <;> simp [transaction_receipt, hc, hts]

/-- Witness for C8 (a pending hash in `sampleEnvEmpty`, a processed hash in
`sampleEnvA`): applied at concrete inputs of both branches through the same
theorem instance is impossible, so this instantiates the theorem where the
present-status branch fires and its `None` branch holds vacuously. -/
theorem C8_transaction_receipt_shape_witness :
    (sampleEnvA.runtime_transaction_status 10 42 = .ok none →
      transaction_receipt sampleEnvA 42 = Outcome.ok none) ∧
    (sampleEnvA.runtime_transaction_status 10 42 = .ok (some sampleStatus) →
      transaction_receipt sampleEnvA 42 = Outcome.ok (some
        { transaction_hash := some sampleStatus.transaction_hash
          transaction_index := some sampleStatus.transaction_index
          block_hash := some 0
          sender := some sampleStatus.sender
          «to» := sampleStatus.«to»
          block_number := some 0
          cumulative_gas_used := 0
          gas_used := some 0
          contract_address := sampleStatus.contract_address
          logs := []
          state_root := none
          logs_bloom := 0
          status_code := none })) :=
  C8_transaction_receipt_shape sampleEnvA { hash := 10, number := 7 } 42 sampleStatus rfl

/-- C9 counterexample: the uncle-count stub silently succeeds with a
fabricated zero and `work` silently succeeds with a default work package,
instead of reporting "unimplemented". -/
theorem C9_counterexample :
    block_uncles_count_by_hash 5 = Outcome.ok 0 ∧
    work = Outcome.ok { pow_hash := 0, seed_hash := 0, target := 0, number := none } :=
  ⟨rfl, rfl⟩

/-- C9 amended: the `call`, `estimate_gas`, `logs` and compiler endpoints
abort with an `unimplemented!` panic; but the uncle-count endpoints silently
return `Ok(0)`, the uncle-by-index endpoints return `Ok(None)`, and `work`
returns `Ok` with an all-default work package. -/
theorem C9_stub_behaviour
    (req fil hsh idx : Nat) (nopt : Option BlockNumber) (src : String)
    (number : BlockNumber) :
    call req nopt = Outcome.panic "call" ∧
    estimate_gas req nopt = Outcome.panic "estimate_gas" ∧
    logs fil = Outcome.panic "logs" ∧
    compilers = Outcome.panic "compilers" ∧
    compile_solidity src = Outcome.panic "compile_solidity" ∧
    block_uncles_count_by_hash hsh = Outcome.ok 0 ∧
    block_uncles_count_by_number number = Outcome.ok 0 ∧
    uncle_by_block_hash_and_index hsh idx = Outcome.ok none ∧
    uncle_by_block_number_and_index number idx = Outcome.ok none ∧
    work = Outcome.ok { pow_hash := 0, seed_hash := 0, target := 0, number := none } :=
  ⟨rfl, rfl, rfl, rfl, rfl, rfl, rfl, rfl, rfl, rfl⟩

/-- C10: a successful `block_by_hash` lookup returns
`rich_block_build block` regardless of the ignored full-transactions
boolean; the assembled block has `hash = None`, empty transactions, zero
author/miner/uncles-hash, empty extra data and uncles, `size` and
`total_difficulty = None`, and copies the remaining header fields
verbatim. -/
theorem C10_rich_block_fields
    (env : Env) (hsh : Nat) (b₁ b₂ : Bool) (hdr : Header) (block : EthBlock)
    (hc : env.best_chain = .ok hdr)
    (hbh : env.runtime_block_by_hash hdr.hash hsh = .ok (some block)) :
    block_by_hash env hsh b₁ = Outcome.ok (some (rich_block_build block)) ∧
    block_by_hash env hsh b₁ = block_by_hash env hsh b₂ ∧
    (rich_block_build block).inner.hash = none ∧
    (rich_block_build block).inner.transactions = BlockTransactions.Full [] ∧
    (rich_block_build block).inner.author = 0 ∧
    (rich_block_build block).inner.miner = 0 ∧
    (rich_block_build block).inner.uncles_hash = 0 ∧
    (rich_block_build block).inner.extra_data = [] ∧
    (rich_block_build block).inner.uncles = [] ∧
    (rich_block_build block).inner.size = none ∧
    (rich_block_build block).inner.total_difficulty = none ∧
    (rich_block_build block).inner.parent_hash = block.header.parent_hash ∧
    (rich_block_build block).inner.state_root = block.header.state_root ∧
    (rich_block_build block).inner.transactions_root = block.header.transactions_root ∧
    (rich_block_build block).inner.receipts_root = block.header.receipts_root ∧
    (rich_block_build block).inner.number = some block.header.number ∧
    (rich_block_build block).inner.gas_used = block.header.gas_used ∧
    (rich_block_build block).inner.gas_limit = block.header.gas_limit ∧
    (rich_block_build block).inner.logs_bloom = some block.header.logs_bloom ∧
    (rich_block_build block).inner.timestamp = block.header.timestamp ∧
    (rich_block_build block).inner.difficulty = block.header.difficulty := by
  refine ⟨?_, ?_, rfl, rfl, rfl, rfl, rfl, rfl, rfl, rfl, rfl, rfl, rfl, rfl, rfl,
    rfl, rfl, rfl, rfl, rfl, rfl⟩
  · simp [block_by_hash, hc, hbh]
  · simp [block_by_hash, hc, hbh]

/-- Witness for C10 at `sampleEnvA` and `sampleBlock`. -/
theorem C10_rich_block_fields_witness :
    block_by_hash sampleEnvA 5 true = Outcome.ok (some (rich_block_build sampleBlock)) ∧
    block_by_hash sampleEnvA 5 true = block_by_hash sampleEnvA 5 false ∧
    (rich_block_build sampleBlock).inner.hash = none ∧
    (rich_block_build sampleBlock).inner.transactions = BlockTransactions.Full [] ∧
    (rich_block_build sampleBlock).inner.author = 0 ∧
    (rich_block_build sampleBlock).inner.miner = 0 ∧
    (rich_block_build sampleBlock).inner.uncles_hash = 0 ∧
    (rich_block_build sampleBlock).inner.extra_data = [] ∧
    (rich_block_build sampleBlock).inner.uncles = [] ∧
    (rich_block_build sampleBlock).inner.size = none ∧
    (rich_block_build sampleBlock).inner.total_difficulty = none ∧
    (rich_block_build sampleBlock).inner.parent_hash = sampleBlock.header.parent_hash ∧
    (rich_block_build sampleBlock).inner.state_root = sampleBlock.header.state_root ∧
    (rich_block_build sampleBlock).inner.transactions_root = sampleBlock.header.transactions_root ∧
    (rich_block_build sampleBlock).inner.receipts_root = sampleBlock.header.receipts_root ∧
    (rich_block_build sampleBlock).inner.number = some sampleBlock.header.number ∧
    (rich_block_build sampleBlock).inner.gas_used = sampleBlock.header.gas_used ∧
    (rich_block_build sampleBlock).inner.gas_limit = sampleBlock.header.gas_limit ∧
    (rich_block_build sampleBlock).inner.logs_bloom = some sampleBlock.header.logs_bloom ∧
    (rich_block_build sampleBlock).inner.timestamp = sampleBlock.header.timestamp ∧
    (rich_block_build sampleBlock).inner.difficulty = sampleBlock.header.difficulty :=
  C10_rich_block_fields sampleEnvA 5 true false { hash := 10, number := 7 } sampleBlock
    rfl rfl

end FrontierRpc
